import Mathlib

/-!
Verification of src/models.py of the autonomous-trading-ecosystem-marketplace
repository: the TradingAgent and TradingStrategy dataclasses and their
Firestore serialization methods, shallowly embedded in Lean.

Modelling conventions:
* Python float values carried by the models are modelled as rationals; the
  embedded code performs no arithmetic on them, and NaN and the infinities
  are outside the model.
* Python datetime values (naive, as produced by datetime.utcnow) are
  modelled by the DateTime structure below; datetime.isoformat and
  datetime.fromisoformat are modelled on the textual formats that the
  embedded code produces and consumes.
* Firestore documents (Python dicts) are modelled as insertion-ordered
  association lists with the dict item operations; item assignment on an
  existing key keeps its position, matching Python dict semantics.
* Python exceptions raised by the embedded code are modelled by PyErr:
  ValueError (the ValidationError of the specification), KeyError and
  TypeError.
-/

/-- Model of a naive Python datetime value (no tzinfo), as produced by
datetime.utcnow in src/models.py. -/
structure DateTime where
  year : Nat
  month : Nat
  day : Nat
  hour : Nat
  minute : Nat
  second : Nat
  microsecond : Nat
deriving DecidableEq

/-- Gregorian leap-year rule used by the datetime library. -/
def isLeapYear (y : Nat) : Bool :=
  y % 4 == 0 && (y % 100 != 0 || y % 400 == 0)

/-- Number of days in a month of a given year, as validated by the
datetime constructor. -/
def daysInMonth (y m : Nat) : Nat :=
  if m = 2 then (if isLeapYear y then 29 else 28)
  else if m = 4 ∨ m = 6 ∨ m = 9 ∨ m = 11 then 30
  else 31

/-- Range constraints the Python datetime constructor enforces on its
components (MINYEAR = 1, MAXYEAR = 9999). -/
abbrev DateTimeValid (y mo d h mi s us : Nat) : Prop :=
  1 ≤ y ∧ y ≤ 9999 ∧ 1 ≤ mo ∧ mo ≤ 12 ∧ 1 ≤ d ∧ d ≤ daysInMonth y mo ∧
    h ≤ 23 ∧ mi ≤ 59 ∧ s ≤ 59 ∧ us ≤ 999999

/-- A DateTime value representable by the Python datetime class. -/
abbrev DateTime.Valid (d : DateTime) : Prop :=
  DateTimeValid d.year d.month d.day d.hour d.minute d.second d.microsecond

/-- Checked construction of a datetime, as the datetime constructor does. -/
def mkValidDateTime (y mo d h mi s us : Nat) : Option DateTime :=
  if DateTimeValid y mo d h mi s us then some ⟨y, mo, d, h, mi, s, us⟩ else none

/-- Decimal digit of a number, as a character. -/
def charToDigit? (c : Char) : Option Nat :=
  if '0' ≤ c ∧ c ≤ '9' then some (c.toNat - 48) else none

/-- Two-digit zero-padded decimal rendering (the %02d pieces of isoformat). -/
def pad2 (n : Nat) : List Char :=
  [Nat.digitChar (n / 10 % 10), Nat.digitChar (n % 10)]

/-- Four-digit zero-padded decimal rendering (the %04d year of isoformat). -/
def pad4 (n : Nat) : List Char :=
  [Nat.digitChar (n / 1000 % 10), Nat.digitChar (n / 100 % 10),
   Nat.digitChar (n / 10 % 10), Nat.digitChar (n % 10)]

/-- Six-digit zero-padded decimal rendering (the %06d microseconds of
isoformat). -/
def pad6 (n : Nat) : List Char :=
  [Nat.digitChar (n / 100000 % 10), Nat.digitChar (n / 10000 % 10),
   Nat.digitChar (n / 1000 % 10), Nat.digitChar (n / 100 % 10),
   Nat.digitChar (n / 10 % 10), Nat.digitChar (n % 10)]

/-- Model of datetime.isoformat for naive datetimes: the string
YYYY-MM-DDTHH:MM:SS, followed by .ffffff exactly when the microsecond
component is nonzero (Python omits the fraction when it is zero). -/
def DateTime.isoformat (d : DateTime) : String :=
  ⟨pad4 d.year ++ ('-' :: (pad2 d.month ++ ('-' :: (pad2 d.day ++
    ('T' :: (pad2 d.hour ++ (':' :: (pad2 d.minute ++ (':' :: (pad2 d.second ++
    (if d.microsecond = 0 then [] else '.' :: pad6 d.microsecond)))))))))))⟩

/-- Read two decimal digits from the front of a character list. -/
def parse2 : List Char → Option (Nat × List Char)
  | c1 :: c2 :: r =>
    match charToDigit? c1, charToDigit? c2 with
    | some d1, some d0 => some (10 * d1 + d0, r)
    | _, _ => none
  | _ => none

/-- Read four decimal digits from the front of a character list. -/
def parse4 : List Char → Option (Nat × List Char)
  | c3 :: c2 :: c1 :: c0 :: r =>
    match charToDigit? c3, charToDigit? c2, charToDigit? c1, charToDigit? c0 with
    | some d3, some d2, some d1, some d0 =>
      some (1000 * d3 + 100 * d2 + 10 * d1 + d0, r)
    | _, _, _, _ => none
  | _ => none

/-- Read a fractional-second suffix: exactly three digits (milliseconds) or
exactly six digits (microseconds), the two widths fromisoformat accepts. -/
def parseFrac : List Char → Option Nat
  | [c2, c1, c0] =>
    match charToDigit? c2, charToDigit? c1, charToDigit? c0 with
    | some d2, some d1, some d0 => some ((100 * d2 + 10 * d1 + d0) * 1000)
    | _, _, _ => none
  | [c5, c4, c3, c2, c1, c0] =>
    match charToDigit? c5, charToDigit? c4, charToDigit? c3,
          charToDigit? c2, charToDigit? c1, charToDigit? c0 with
    | some d5, some d4, some d3, some d2, some d1, some d0 =>
      some (100000 * d5 + 10000 * d4 + 1000 * d3 + 100 * d2 + 10 * d1 + d0)
    | _, _, _, _, _, _ => none
  | _ => none

/-- Require a specific character at the front of a character list. -/
def expectChar (c : Char) : List Char → Option (List Char)
  | c1 :: r => if c1 = c then some r else none
  | _ => none

/-- Model of datetime.fromisoformat on a character list: a date
YYYY-MM-DD, optionally followed by a one-character separator and a time
HH:MM, HH:MM:SS or HH:MM:SS.fff(fff), with the component ranges checked by
the datetime constructor.  Any string outside these shapes is rejected
(Python then raises ValueError). -/
def parseIsoChars (cs : List Char) : Option DateTime :=
  match parse4 cs with
  | none => none
  | some (y, r) =>
    match expectChar '-' r with
    | none => none
    | some r =>
      match parse2 r with
      | none => none
      | some (mo, r) =>
        match expectChar '-' r with
        | none => none
        | some r =>
          match parse2 r with
          | none => none
          | some (da, r) =>
            match r with
            | [] => mkValidDateTime y mo da 0 0 0 0
            | _ :: r =>
              match parse2 r with
              | none => none
              | some (h, r) =>
                match expectChar ':' r with
                | none => none
                | some r =>
                  match parse2 r with
                  | none => none
                  | some (mi, r) =>
                    match r with
                    | [] => mkValidDateTime y mo da h mi 0 0
                    | ':' :: r =>
                      match parse2 r with
                      | none => none
                      | some (s, r) =>
                        match r with
                        | [] => mkValidDateTime y mo da h mi s 0
                        | '.' :: r =>
                          match parseFrac r with
                          | none => none
                          | some us => mkValidDateTime y mo da h mi s us
                        | _ => none
                    | _ => none

/-- Model of datetime.fromisoformat on a string. -/
def parseIso (s : String) : Option DateTime :=
  parseIsoChars s.data

theorem charToDigit?_digitChar (k : Nat) (h : k < 10) :
    charToDigit? (Nat.digitChar k) = some k := by
  interval_cases k <;> decide

theorem parse2_pad2 (n : Nat) (h : n < 100) (r : List Char) :
    parse2 (pad2 n ++ r) = some (n, r) := by
  have h1 : n / 10 % 10 < 10 := Nat.mod_lt _ (by norm_num)
  have h0 : n % 10 < 10 := Nat.mod_lt _ (by norm_num)
  simp [pad2, parse2, charToDigit?_digitChar _ h1, charToDigit?_digitChar _ h0]
  omega

theorem parse4_pad4 (n : Nat) (h : n < 10000) (r : List Char) :
    parse4 (pad4 n ++ r) = some (n, r) := by
  have h3 : n / 1000 % 10 < 10 := Nat.mod_lt _ (by norm_num)
  have h2 : n / 100 % 10 < 10 := Nat.mod_lt _ (by norm_num)
  have h1 : n / 10 % 10 < 10 := Nat.mod_lt _ (by norm_num)
  have h0 : n % 10 < 10 := Nat.mod_lt _ (by norm_num)
  simp [pad4, parse4, charToDigit?_digitChar _ h3, charToDigit?_digitChar _ h2,
    charToDigit?_digitChar _ h1, charToDigit?_digitChar _ h0]
  omega

theorem parseFrac_pad6 (n : Nat) (h : n < 1000000) :
    parseFrac (pad6 n) = some n := by
  have h5 : n / 100000 % 10 < 10 := Nat.mod_lt _ (by norm_num)
  have h4 : n / 10000 % 10 < 10 := Nat.mod_lt _ (by norm_num)
  have h3 : n / 1000 % 10 < 10 := Nat.mod_lt _ (by norm_num)
  have h2 : n / 100 % 10 < 10 := Nat.mod_lt _ (by norm_num)
  have h1 : n / 10 % 10 < 10 := Nat.mod_lt _ (by norm_num)
  have h0 : n % 10 < 10 := Nat.mod_lt _ (by norm_num)
  simp [pad6, parseFrac, charToDigit?_digitChar _ h5, charToDigit?_digitChar _ h4,
    charToDigit?_digitChar _ h3, charToDigit?_digitChar _ h2,
    charToDigit?_digitChar _ h1, charToDigit?_digitChar _ h0]
  omega

theorem parse2_pad2_nil (n : Nat) (h : n < 100) :
    parse2 (pad2 n) = some (n, []) := by
  have := parse2_pad2 n h []
  simpa using this

theorem expectChar_cons (c : Char) (r : List Char) :
    expectChar c (c :: r) = some r := by
  simp [expectChar]

theorem daysInMonth_le (y m : Nat) : daysInMonth y m ≤ 31 := by
  unfold daysInMonth
  split
  · split <;> omega
  · split <;> omega

/-- Parsing inverts printing: fromisoformat recovers any valid datetime
from its isoformat rendering. -/
theorem parseIso_isoformat (d : DateTime) (h : d.Valid) :
    parseIso (DateTime.isoformat d) = some d := by
  obtain ⟨y, mo, da, hh, mi, se, us⟩ := d
  have hvalid : DateTimeValid y mo da hh mi se us := h
  have hdm : daysInMonth y mo ≤ 31 := daysInMonth_le y mo
  obtain ⟨hy1, hy2, hm1, hm2, hd1, hd2, hh1, hmi1, hs1, hus1⟩ := hvalid
  have hvalid2 : DateTimeValid y mo da hh mi se us :=
    ⟨hy1, hy2, hm1, hm2, hd1, hd2, hh1, hmi1, hs1, hus1⟩
  simp only [parseIso, DateTime.isoformat]
  by_cases hus : us = 0
  · subst hus
    simp only [if_pos rfl, List.append_nil]
    simp only [parseIsoChars, parse4_pad4 y (by omega), expectChar_cons,
      parse2_pad2 mo (by omega), parse2_pad2 da (by omega),
      parse2_pad2 hh (by omega), parse2_pad2 mi (by omega)]
    simp [parse2_pad2_nil se (by omega), mkValidDateTime, hvalid2]
  · simp only [if_neg hus]
    simp only [parseIsoChars, parse4_pad4 y (by omega), expectChar_cons,
      parse2_pad2 mo (by omega), parse2_pad2 da (by omega),
      parse2_pad2 hh (by omega), parse2_pad2 mi (by omega)]
    simp [parse2_pad2 se (by omega), parseFrac_pad6 us (by omega),
      mkValidDateTime, hvalid2]

/-- The AgentStatus enum of src/models.py (a str-valued Enum). -/
inductive AgentStatus where
  | REGISTERED
  | VERIFIED
  | SUSPENDED
  | RETIRED
deriving DecidableEq

/-- Underlying string value of each AgentStatus member. -/
def AgentStatus.val : AgentStatus → String
  | .REGISTERED => "registered"
  | .VERIFIED => "verified"
  | .SUSPENDED => "suspended"
  | .RETIRED => "retired"

/-- Value-based member lookup, as the enum call AgentStatus(x) does on a
string argument. -/
def AgentStatus.ofVal? (s : String) : Option AgentStatus :=
  if s = "registered" then some .REGISTERED
  else if s = "verified" then some .VERIFIED
  else if s = "suspended" then some .SUSPENDED
  else if s = "retired" then some .RETIRED
  else none

/-- The StrategyType enum of src/models.py (a str-valued Enum). -/
inductive StrategyType where
  | TECHNICAL
  | FUNDAMENTAL
  | QUANTITATIVE
  | ML_PREDICTIVE
  | ARBITRAGE
  | MARKET_MAKING
deriving DecidableEq

/-- Underlying string value of each StrategyType member. -/
def StrategyType.val : StrategyType → String
  | .TECHNICAL => "technical"
  | .FUNDAMENTAL => "fundamental"
  | .QUANTITATIVE => "quantitative"
  | .ML_PREDICTIVE => "ml_predictive"
  | .ARBITRAGE => "arbitrage"
  | .MARKET_MAKING => "market_making"

/-- Value-based member lookup, as the enum call StrategyType(x) does on a
string argument. -/
def StrategyType.ofVal? (s : String) : Option StrategyType :=
  if s = "technical" then some .TECHNICAL
  else if s = "fundamental" then some .FUNDAMENTAL
  else if s = "quantitative" then some .QUANTITATIVE
  else if s = "ml_predictive" then some .ML_PREDICTIVE
  else if s = "arbitrage" then some .ARBITRAGE
  else if s = "market_making" then some .MARKET_MAKING
  else none

theorem agentStatus_ofVal_val (a : AgentStatus) : AgentStatus.ofVal? a.val = some a := by
  cases a <;> rfl

theorem strategyType_ofVal_val (t : StrategyType) : StrategyType.ofVal? t.val = some t := by
  cases t <;> rfl

/-- Python exceptions the embedded methods can raise: ValueError is what
datetime.fromisoformat and an enum call raise on a bad string (the
ValidationError of the specification); KeyError is raised by a dict lookup
on a missing key; TypeError by calls on values of the wrong type. -/
inductive PyErr where
  | valueError
  | keyError (key : String)
  | typeError
deriving DecidableEq

/-- Values a Firestore-style document can carry in this model: the Python
values that flow through src/models.py.  Enum members are distinct from
plain strings, exactly as in Python, where type(AgentStatus.REGISTERED) is
AgentStatus even though the class subclasses str. -/
inductive Value where
  | str (s : String)
  | int (n : Int)
  | float (q : Rat)
  | bool (b : Bool)
  | none
  | datetime (d : DateTime)
  | enumAgentStatus (a : AgentStatus)
  | enumStrategyType (t : StrategyType)
  | list (xs : List Value)
  | dict (entries : List (String × Value))

/-- A Python dict with string keys, as an insertion-ordered association
list; all dicts built by the embedded code have distinct keys. -/
abbrev Doc := List (String × Value)

/-- Dict item lookup data[k]: first entry with the key, none when the key
is absent (Python raises KeyError). -/
def Doc.getItem : Doc → String → Option Value
  | [], _ => Option.none
  | (k1, v) :: r, k => if k1 = k then some v else Doc.getItem r k

/-- Dict item assignment data[k] = v: replaces the value of an existing
key in place (keeping its position), otherwise appends a new entry, as
Python dicts do. -/
def Doc.setItem : Doc → String → Value → Doc
  | [], k, v => [(k, v)]
  | (k1, v1) :: r, k, v => if k1 = k then (k, v) :: r else (k1, v1) :: Doc.setItem r k v

theorem Doc.getItem_setItem_self (d : Doc) (k : String) (v : Value) :
    Doc.getItem (Doc.setItem d k v) k = some v := by
  induction d with
  | nil => simp [Doc.setItem, Doc.getItem]
  | cons e r ih =>
    obtain ⟨k1, v1⟩ := e
    by_cases h : k1 = k
    · simp [Doc.setItem, Doc.getItem, h]
    · simp [Doc.setItem, Doc.getItem, h, ih]

theorem Doc.getItem_setItem_ne (d : Doc) (k k1 : String) (v : Value) (h : k ≠ k1) :
    Doc.getItem (Doc.setItem d k1 v) k = Doc.getItem d k := by
  have h1 : ¬ (k1 = k) := fun hh => h (Eq.symm hh)
  induction d with
  | nil => simp [Doc.setItem, Doc.getItem, h1]
  | cons e r ih =>
    obtain ⟨k2, v2⟩ := e
    by_cases h2 : k2 = k1
    · subst h2
      simp [Doc.setItem, Doc.getItem, h1]
    · simp only [Doc.setItem, if_neg h2]
      by_cases h3 : k2 = k
      · simp [Doc.getItem, h3]
      · simp [Doc.getItem, h3, ih]

mutual

/-- Whether a value is of a kind Firestore documents can hold directly:
a string, a number, a boolean, a sequence or a nested string-keyed
mapping of such values.  Raw datetime objects, enum members and None are
not of these kinds. -/
def Value.isFirestorePrimitive : Value → Bool
  | .str _ => true
  | .int _ => true
  | .float _ => true
  | .bool _ => true
  | .none => false
  | .datetime _ => false
  | .enumAgentStatus _ => false
  | .enumStrategyType _ => false
  | .list xs => valueListPrim xs
  | .dict es => entryListPrim es

/-- All values of a list are Firestore-storable. -/
def valueListPrim : List Value → Bool
  | [] => true
  | v :: r => Value.isFirestorePrimitive v && valueListPrim r

/-- All values of an association list are Firestore-storable. -/
def entryListPrim : List (String × Value) → Bool
  | [] => true
  | (_, v) :: r => Value.isFirestorePrimitive v && entryListPrim r

end

/-- Extract a plain string (Python str, not an enum member). -/
def Value.asStr? : Value → Option String
  | .str s => some s
  | _ => Option.none

/-- Extract a float. -/
def Value.asFloat? : Value → Option Rat
  | .float q => some q
  | _ => Option.none

/-- Extract an int. -/
def Value.asInt? : Value → Option Int
  | .int n => some n
  | _ => Option.none

/-- Extract a bool. -/
def Value.asBool? : Value → Option Bool
  | .bool b => some b
  | _ => Option.none

/-- Extract a datetime object. -/
def Value.asDatetime? : Value → Option DateTime
  | .datetime d => some d
  | _ => Option.none

/-- Extract an AgentStatus enum member. -/
def Value.asAgentStatus? : Value → Option AgentStatus
  | .enumAgentStatus a => some a
  | _ => Option.none

/-- Extract a StrategyType enum member. -/
def Value.asStrategyType? : Value → Option StrategyType
  | .enumStrategyType t => some t
  | _ => Option.none

/-- Extract a nested dict. -/
def Value.asDict? : Value → Option (List (String × Value))
  | .dict es => some es
  | _ => Option.none

/-- Extract a list. -/
def Value.asList? : Value → Option (List Value)
  | .list xs => some xs
  | _ => Option.none

/-- Extract an Optional[float]: None or a float. -/
def Value.asOptFloat? : Value → Option (Option Rat)
  | .none => some Option.none
  | .float q => some (some q)
  | _ => Option.none

/-- Encode a Dict[str, float] as a document value (what asdict produces
for such a field). -/
def encodeFloatEntries : List (String × Rat) → List (String × Value)
  | [] => []
  | (k, q) :: r => (k, Value.float q) :: encodeFloatEntries r

/-- Decode a document value back into a Dict[str, float]. -/
def floatEntries? : List (String × Value) → Option (List (String × Rat))
  | [] => some []
  | (k, .float q) :: r =>
    match floatEntries? r with
    | some t => some ((k, q) :: t)
    | Option.none => Option.none
  | _ => Option.none

/-- Encode a List[str] as a list of document values. -/
def encodeStrList : List String → List Value
  | [] => []
  | s :: r => Value.str s :: encodeStrList r

/-- Decode a list of document values back into a List[str]. -/
def strList? : List Value → Option (List String)
  | [] => some []
  | .str s :: r =>
    match strList? r with
    | some t => some (s :: t)
    | Option.none => Option.none
  | _ => Option.none

/-- Encode a List[Dict[str, float]] as a list of document values. -/
def encodeFloatDicts : List (List (String × Rat)) → List Value
  | [] => []
  | m :: r => Value.dict (encodeFloatEntries m) :: encodeFloatDicts r

/-- Decode a list of document values back into a List[Dict[str, float]]. -/
def floatDicts? : List Value → Option (List (List (String × Rat)))
  | [] => some []
  | .dict es :: r =>
    match floatEntries? es, floatDicts? r with
    | some m, some t => some (m :: t)
    | _, _ => Option.none
  | _ => Option.none

/-- Whether every key of the document is among the given field names. -/
def Doc.hasOnlyKeys (d : Doc) (ks : List String) : Bool :=
  d.all fun kv => ks.contains kv.1

/-- Keyword lookup with a shape requirement on the value; a failure is the
TypeError the generated init raises on a bad keyword set (the embedding
additionally requires each value to be of the annotated field type, see
TradingAgent.ofKwargs). -/
def req {α : Type} (d : Doc) (k : String) (f : Value → Option α) : Except PyErr α :=
  match Doc.getItem d k with
  | some v =>
    match f v with
    | some x => Except.ok x
    | Option.none => Except.error PyErr.typeError
  | Option.none => Except.error PyErr.typeError

/-- Turn a shape-decoding result into a TypeError on failure. -/
def ofShape {α : Type} : Option α → Except PyErr α
  | some x => Except.ok x
  | Option.none => Except.error PyErr.typeError

/-- The TradingAgent dataclass of src/models.py, lines 51 to 79: field
names and annotated types as declared there. -/
structure TradingAgent where
  agent_id : String
  owner_wallet : String
  name : String
  description : String
  status : AgentStatus
  registration_date : DateTime
  last_active : DateTime
  performance_metrics : List (String × Rat)
  credit_balance : Rat
  reputation_score : Rat
  metadata : List (String × Value)

/-- A TradingAgent instance is valid when its datetime fields are values
the datetime class can represent and its metadata dict (annotated
Dict[str, Any]) holds only Firestore-storable values, as the docstring of
to_firestore_dict (a Firestore-compatible dictionary) requires. -/
def TradingAgent.Valid (a : TradingAgent) : Prop :=
  a.registration_date.Valid ∧ a.last_active.Valid ∧ entryListPrim a.metadata = true

/-- The field names of TradingAgent in declaration order. -/
def agentFieldNames : List String :=
  ["agent_id", "owner_wallet", "name", "description", "status",
   "registration_date", "last_active", "performance_metrics",
   "credit_balance", "reputation_score", "metadata"]

/-- Embeds dataclasses.asdict(self) for TradingAgent: a dict of the fields
in declaration order.  asdict recurses into dicts and lists and deep-copies
every other value, so datetime fields stay datetime objects and the status
field stays the AgentStatus enum member (deepcopy of an enum member is the
member itself); asdict performs no enum-to-string conversion. -/
def TradingAgent.asdict (a : TradingAgent) : Doc :=
  [("agent_id", Value.str a.agent_id),
   ("owner_wallet", Value.str a.owner_wallet),
   ("name", Value.str a.name),
   ("description", Value.str a.description),
   ("status", Value.enumAgentStatus a.status),
   ("registration_date", Value.datetime a.registration_date),
   ("last_active", Value.datetime a.last_active),
   ("performance_metrics", Value.dict (encodeFloatEntries a.performance_metrics)),
   ("credit_balance", Value.float a.credit_balance),
   ("reputation_score", Value.float a.reputation_score),
   ("metadata", Value.dict a.metadata)]

/-- Embeds TradingAgent.to_firestore_dict (src/models.py lines 66 to 71):
data = asdict(self), then the two datetime entries are overwritten with
their isoformat strings.  In asdict(self) the entry at each datetime key
is exactly the corresponding field, so the attribute call on the looked-up
entry is written directly on the field.  No conversion is applied to the
status entry. -/
def TradingAgent.to_firestore_dict (a : TradingAgent) : Doc :=
  let data := a.asdict
  let data := Doc.setItem data "registration_date"
    (Value.str (DateTime.isoformat a.registration_date))
  let data := Doc.setItem data "last_active"
    (Value.str (DateTime.isoformat a.last_active))
  data

/-- Embeds the call datetime.fromisoformat(x): parses a str argument
(ValueError when the string is not a well-formed timestamp) and raises
TypeError on a non-str argument. -/
def datetime_fromisoformat (v : Value) : Except PyErr DateTime :=
  match v with
  | .str s =>
    match parseIso s with
    | some d => Except.ok d
    | Option.none => Except.error PyErr.valueError
  | _ => Except.error PyErr.typeError

/-- Embeds the enum call AgentStatus(x): a member passes through, a string
is looked up by value (ValueError when it is not the value of any member),
an unhashable list or dict raises TypeError, and any other value raises
ValueError. -/
def agentStatus_call (v : Value) : Except PyErr AgentStatus :=
  match v with
  | .enumAgentStatus a => Except.ok a
  | .str s =>
    match AgentStatus.ofVal? s with
    | some a => Except.ok a
    | Option.none => Except.error PyErr.valueError
  | .list _ => Except.error PyErr.typeError
  | .dict _ => Except.error PyErr.typeError
  | _ => Except.error PyErr.valueError

/-- Embeds the enum call StrategyType(x), as agentStatus_call. -/
def strategyType_call (v : Value) : Except PyErr StrategyType :=
  match v with
  | .enumStrategyType t => Except.ok t
  | .str s =>
    match StrategyType.ofVal? s with
    | some t => Except.ok t
    | Option.none => Except.error PyErr.valueError
  | .list _ => Except.error PyErr.typeError
  | .dict _ => Except.error PyErr.typeError
  | _ => Except.error PyErr.valueError

/-- Embeds the call cls(**data) on line 79 for documents carrying every
field: each keyword is looked up by name; a missing or unexpected keyword
raises TypeError.  The generated init stores values without runtime type
checks in Python; the embedding gives each field its annotated type, so it
additionally requires each value to have that type, which every document
reaching this call in the verified claims does.  Default factories for
omitted defaulted fields are not modelled (and the dataclass as declared
cannot be constructed at all, see dataclassOk below). -/
def TradingAgent.ofKwargs (data : Doc) : Except PyErr TradingAgent :=
  if Doc.hasOnlyKeys data agentFieldNames then do
    let agent_id ← req data "agent_id" Value.asStr?
    let owner_wallet ← req data "owner_wallet" Value.asStr?
    let name ← req data "name" Value.asStr?
    let description ← req data "description" Value.asStr?
    let status ← req data "status" Value.asAgentStatus?
    let registration_date ← req data "registration_date" Value.asDatetime?
    let last_active ← req data "last_active" Value.asDatetime?
    let pmv ← req data "performance_metrics" Value.asDict?
    let performance_metrics ← ofShape (floatEntries? pmv)
    let credit_balance ← req data "credit_balance" Value.asFloat?
    let reputation_score ← req data "reputation_score" Value.asFloat?
    let metadata ← req data "metadata" Value.asDict?
    pure ⟨agent_id, owner_wallet, name, description, status, registration_date,
      last_active, performance_metrics, credit_balance, reputation_score, metadata⟩
  else Except.error PyErr.typeError

/-- Embeds TradingAgent.from_firestore_dict (src/models.py lines 73 to 79).
The method mutates its argument: each conversion is an item assignment on
the caller's dict, so the dict is threaded through and returned alongside
the result.  Order of operations follows the source: registration_date,
then last_active, then status, then cls(**data). -/
def TradingAgent.from_firestore_dict (data : Doc) :
    Except PyErr TradingAgent × Doc :=
  match Doc.getItem data "registration_date" with
  | Option.none => (Except.error (PyErr.keyError "registration_date"), data)
  | some v1 =>
    match datetime_fromisoformat v1 with
    | Except.error e => (Except.error e, data)
    | Except.ok rd =>
      let data := Doc.setItem data "registration_date" (Value.datetime rd)
      match Doc.getItem data "last_active" with
      | Option.none => (Except.error (PyErr.keyError "last_active"), data)
      | some v2 =>
        match datetime_fromisoformat v2 with
        | Except.error e => (Except.error e, data)
        | Except.ok la =>
          let data := Doc.setItem data "last_active" (Value.datetime la)
          match Doc.getItem data "status" with
          | Option.none => (Except.error (PyErr.keyError "status"), data)
          | some v3 =>
            match agentStatus_call v3 with
            | Except.error e => (Except.error e, data)
            | Except.ok st =>
              let data := Doc.setItem data "status" (Value.enumAgentStatus st)
              (TradingAgent.ofKwargs data, data)

/-- Encode an Optional[float] field value, as asdict leaves it: None or a
float. -/
def encodeOptFloat : Option Rat → Value
  | Option.none => Value.none
  | some q => Value.float q

/-- The TradingStrategy dataclass of src/models.py, lines 82 to 118: field
names and annotated types as declared there. -/
structure TradingStrategy where
  strategy_id : String
  creator_agent_id : String
  name : String
  description : String
  strategy_type : StrategyType
  price : Rat
  rental_price_per_hour : Option Rat
  code_hash : String
  storage_path : String
  created_at : DateTime
  updated_at : DateTime
  version : String
  dependencies : List String
  performance_history : List (List (String × Rat))
  total_sales : Int
  average_rating : Rat
  is_active : Bool
  validation_score : Rat

/-- A TradingStrategy instance is valid when its datetime fields are
values the datetime class can represent (every other field is already of
a Firestore-storable type). -/
def TradingStrategy.Valid (s : TradingStrategy) : Prop :=
  s.created_at.Valid ∧ s.updated_at.Valid

/-- The field names of TradingStrategy in declaration order. -/
def strategyFieldNames : List String :=
  ["strategy_id", "creator_agent_id", "name", "description", "strategy_type",
   "price", "rental_price_per_hour", "code_hash", "storage_path",
   "created_at", "updated_at", "version", "dependencies",
   "performance_history", "total_sales", "average_rating", "is_active",
   "validation_score"]

/-- Embeds dataclasses.asdict(self) for TradingStrategy, as
TradingAgent.asdict: datetime fields stay datetime objects and the
strategy_type field stays the StrategyType enum member. -/
def TradingStrategy.asdict (s : TradingStrategy) : Doc :=
  [("strategy_id", Value.str s.strategy_id),
   ("creator_agent_id", Value.str s.creator_agent_id),
   ("name", Value.str s.name),
   ("description", Value.str s.description),
   ("strategy_type", Value.enumStrategyType s.strategy_type),
   ("price", Value.float s.price),
   ("rental_price_per_hour", encodeOptFloat s.rental_price_per_hour),
   ("code_hash", Value.str s.code_hash),
   ("storage_path", Value.str s.storage_path),
   ("created_at", Value.datetime s.created_at),
   ("updated_at", Value.datetime s.updated_at),
   ("version", Value.str s.version),
   ("dependencies", Value.list (encodeStrList s.dependencies)),
   ("performance_history", Value.list (encodeFloatDicts s.performance_history)),
   ("total_sales", Value.int s.total_sales),
   ("average_rating", Value.float s.average_rating),
   ("is_active", Value.bool s.is_active),
   ("validation_score", Value.float s.validation_score)]

/-- Embeds TradingStrategy.to_firestore_dict (src/models.py lines 104 to
110): data = asdict(self), the two datetime entries are overwritten with
their isoformat strings, and the strategy_type entry is overwritten with
the underlying string value of the member (the .value access). -/
def TradingStrategy.to_firestore_dict (s : TradingStrategy) : Doc :=
  let data := s.asdict
  let data := Doc.setItem data "created_at"
    (Value.str (DateTime.isoformat s.created_at))
  let data := Doc.setItem data "updated_at"
    (Value.str (DateTime.isoformat s.updated_at))
  let data := Doc.setItem data "strategy_type"
    (Value.str (StrategyType.val s.strategy_type))
  data

/-- Embeds the call cls(**data) on line 118 for documents carrying every
field, with the same conventions as TradingAgent.ofKwargs. -/
def TradingStrategy.ofKwargs (data : Doc) : Except PyErr TradingStrategy :=
  if Doc.hasOnlyKeys data strategyFieldNames then do
    let strategy_id ← req data "strategy_id" Value.asStr?
    let creator_agent_id ← req data "creator_agent_id" Value.asStr?
    let name ← req data "name" Value.asStr?
    let description ← req data "description" Value.asStr?
    let strategy_type ← req data "strategy_type" Value.asStrategyType?
    let price ← req data "price" Value.asFloat?
    let rental_price_per_hour ← req data "rental_price_per_hour" Value.asOptFloat?
    let code_hash ← req data "code_hash" Value.asStr?
    let storage_path ← req data "storage_path" Value.asStr?
    let created_at ← req data "created_at" Value.asDatetime?
    let updated_at ← req data "updated_at" Value.asDatetime?
    let version ← req data "version" Value.asStr?
    let depv ← req data "dependencies" Value.asList?
    let dependencies ← ofShape (strList? depv)
    let phv ← req data "performance_history" Value.asList?
    let performance_history ← ofShape (floatDicts? phv)
    let total_sales ← req data "total_sales" Value.asInt?
    let average_rating ← req data "average_rating" Value.asFloat?
    let is_active ← req data "is_active" Value.asBool?
    let validation_score ← req data "validation_score" Value.asFloat?
    pure ⟨strategy_id, creator_agent_id, name, description, strategy_type,
      price, rental_price_per_hour, code_hash, storage_path, created_at,
      updated_at, version, dependencies, performance_history, total_sales,
      average_rating, is_active, validation_score⟩
  else Except.error PyErr.typeError

/-- Embeds TradingStrategy.from_firestore_dict (src/models.py lines 112 to
118), mutating its argument like TradingAgent.from_firestore_dict: the
conversions run in source order (created_at, updated_at, strategy_type)
and each one is an item assignment on the caller's dict. -/
def TradingStrategy.from_firestore_dict (data : Doc) :
    Except PyErr TradingStrategy × Doc :=
  match Doc.getItem data "created_at" with
  | Option.none => (Except.error (PyErr.keyError "created_at"), data)
  | some v1 =>
    match datetime_fromisoformat v1 with
    | Except.error e => (Except.error e, data)
    | Except.ok ca =>
      let data := Doc.setItem data "created_at" (Value.datetime ca)
      match Doc.getItem data "updated_at" with
      | Option.none => (Except.error (PyErr.keyError "updated_at"), data)
      | some v2 =>
        match datetime_fromisoformat v2 with
        | Except.error e => (Except.error e, data)
        | Except.ok ua =>
          let data := Doc.setItem data "updated_at" (Value.datetime ua)
          match Doc.getItem data "strategy_type" with
          | Option.none => (Except.error (PyErr.keyError "strategy_type"), data)
          | some v3 =>
            match strategyType_call v3 with
            | Except.error e => (Except.error e, data)
            | Except.ok ty =>
              let data := Doc.setItem data "strategy_type" (Value.enumStrategyType ty)
              (TradingStrategy.ofKwargs data, data)

/-- Modelled from the Python dataclass rule the @dataclass decorator
enforces while generating init: a field without a default value may not
follow a field with one; otherwise the decorator raises TypeError at class
creation time and the class does not exist. -/
def dataclassOk : List (String × Bool) → Bool
  | [] => true
  | (_, hasDefault) :: r =>
    if hasDefault then r.all (fun f => f.2) else dataclassOk r

/-- The fields of the TradingAgent dataclass in source order (src/models.py
lines 54 to 64), paired with whether the declaration carries a default
value or default factory. -/
def TradingAgent.fieldSpec : List (String × Bool) :=
  [("agent_id", true), ("owner_wallet", false), ("name", false),
   ("description", false), ("status", true), ("registration_date", true),
   ("last_active", true), ("performance_metrics", true),
   ("credit_balance", true), ("reputation_score", true), ("metadata", true)]

/-- The fields of the TradingStrategy dataclass in source order
(src/models.py lines 85 to 102), paired with whether the declaration
carries a default value or default factory. -/
def TradingStrategy.fieldSpec : List (String × Bool) :=
  [("strategy_id", true), ("creator_agent_id", false), ("name", false),
   ("description", false), ("strategy_type", false), ("price", false),
   ("rental_price_per_hour", true), ("code_hash", false),
   ("storage_path", false), ("created_at", true), ("updated_at", true),
   ("version", true), ("dependencies", true), ("performance_history", true),
   ("total_sales", true), ("average_rating", true), ("is_active", true),
   ("validation_score", true)]

/-- Construction of a TradingAgent with only the required fields supplied,
as the field declarations on lines 54 to 64 intend: agent_id is the
string agent_ followed by the injected uuid hex prefix, both datetime
fields take the injected clock value, and every other defaulted field
takes its declared default. -/
def TradingAgent.mkDefault (genHex : String) (now : DateTime)
    (owner_wallet name description : String) : TradingAgent :=
  ⟨"agent_" ++ genHex, owner_wallet, name, description,
    AgentStatus.REGISTERED, now, now, [], 0, 100, []⟩

/-- Construction of a TradingStrategy with only the required fields
supplied, as the field declarations on lines 85 to 102 intend. -/
def TradingStrategy.mkDefault (genHex : String) (now : DateTime)
    (creator_agent_id name description : String) (strategy_type : StrategyType)
    (price : Rat) (code_hash storage_path : String) : TradingStrategy :=
  ⟨"strategy_" ++ genHex, creator_agent_id, name, description, strategy_type,
    price, Option.none, code_hash, storage_path, now, now, "1.0.0", [], [],
    0, 0, true, 0⟩

theorem floatEntries?_encode (l : List (String × Rat)) :
    floatEntries? (encodeFloatEntries l) = some l := by
  induction l with
  | nil => rfl
  | cons e r ih =>
    obtain ⟨k, q⟩ := e
    simp [encodeFloatEntries, floatEntries?, ih]

theorem strList?_encode (l : List String) :
    strList? (encodeStrList l) = some l := by
  induction l with
  | nil => rfl
  | cons s r ih => simp [encodeStrList, strList?, ih]

theorem floatDicts?_encode (l : List (List (String × Rat))) :
    floatDicts? (encodeFloatDicts l) = some l := by
  induction l with
  | nil => rfl
  | cons m r ih => simp [encodeFloatDicts, floatDicts?, floatEntries?_encode, ih]

theorem asOptFloat?_encode (o : Option Rat) :
    Value.asOptFloat? (encodeOptFloat o) = some o := by
  cases o <;> rfl

/-- C1: for every valid TradingAgent a, from_firestore_dict(to_firestore_dict(a))
returns a, and for every valid TradingStrategy s,
from_firestore_dict(to_firestore_dict(s)) returns s: the serialize-then-
deserialize round trip is the identity on fixed field values (identifiers
and timestamps are fields here, supplied rather than generated). -/
theorem c1_serialize_deserialize_roundtrip :
    (∀ a : TradingAgent, a.Valid →
      (TradingAgent.from_firestore_dict a.to_firestore_dict).1 = Except.ok a) ∧
    (∀ s : TradingStrategy, s.Valid →
      (TradingStrategy.from_firestore_dict s.to_firestore_dict).1 = Except.ok s) := by
  constructor
  · intro a h
    obtain ⟨aid, ow, nm, dsc, st, rd, la, pm, cb, rs, md⟩ := a
    obtain ⟨h1, h2, h3⟩ := h
    have hp1 : parseIso (DateTime.isoformat rd) = some rd := parseIso_isoformat rd h1
    have hp2 : parseIso (DateTime.isoformat la) = some la := parseIso_isoformat la h2
    simp only [TradingAgent.to_firestore_dict, TradingAgent.asdict, Doc.setItem,
      TradingAgent.from_firestore_dict, Doc.getItem, datetime_fromisoformat,
      hp1, hp2, agentStatus_call, TradingAgent.ofKwargs, Doc.hasOnlyKeys,
      agentFieldNames, req, Value.asStr?, Value.asAgentStatus?, Value.asDatetime?,
      Value.asDict?, Value.asFloat?, ofShape, floatEntries?_encode,
      String.reduceEq, List.all, List.contains, if_true, if_false]
    simp [floatEntries?_encode, Except.bind, bind, pure]
    rfl
  · intro s h
    obtain ⟨sid, cid, nm, dsc, ty, pr, rental, ch, sp, ca, ua, ver, deps, ph,
      ts, ar, ia, vs⟩ := s
    obtain ⟨h1, h2⟩ := h
    have hp1 : parseIso (DateTime.isoformat ca) = some ca := parseIso_isoformat ca h1
    have hp2 : parseIso (DateTime.isoformat ua) = some ua := parseIso_isoformat ua h2
    simp only [TradingStrategy.to_firestore_dict, TradingStrategy.asdict, Doc.setItem,
      TradingStrategy.from_firestore_dict, Doc.getItem, datetime_fromisoformat,
      hp1, hp2, strategyType_call, strategyType_ofVal_val, TradingStrategy.ofKwargs,
      Doc.hasOnlyKeys, strategyFieldNames, req, Value.asStr?, Value.asStrategyType?,
      Value.asDatetime?, Value.asDict?, Value.asFloat?, Value.asOptFloat?,
      Value.asInt?, Value.asBool?, Value.asList?, asOptFloat?_encode, ofShape,
      strList?_encode, floatDicts?_encode,
      String.reduceEq, List.all, List.contains, if_true, if_false]
    simp [strList?_encode, floatDicts?_encode, asOptFloat?_encode,
      Except.bind, bind, pure]
    cases rental <;> rfl

/-- Witness for C1: the round trip evaluated on one concrete valid agent
and one concrete valid strategy. -/
theorem c1_serialize_deserialize_roundtrip_witness :
    (TradingAgent.from_firestore_dict (TradingAgent.to_firestore_dict
      ⟨"agent_0f3a", "0xGenesis", "alpha", "demo agent", AgentStatus.VERIFIED,
        ⟨2024, 2, 29, 23, 59, 59, 0⟩, ⟨2024, 3, 1, 0, 0, 1, 123456⟩,
        [("sharpe", 2)], 5, 100, [("note", Value.str "x")]⟩)).1 =
      Except.ok
      ⟨"agent_0f3a", "0xGenesis", "alpha", "demo agent", AgentStatus.VERIFIED,
        ⟨2024, 2, 29, 23, 59, 59, 0⟩, ⟨2024, 3, 1, 0, 0, 1, 123456⟩,
        [("sharpe", 2)], 5, 100, [("note", Value.str "x")]⟩ ∧
    (TradingStrategy.from_firestore_dict (TradingStrategy.to_firestore_dict
      ⟨"strategy_9b", "agent_0f3a", "mm", "maker", StrategyType.MARKET_MAKING,
        10, some 1, "hashhex", "bucket/path", ⟨2023, 12, 31, 0, 0, 0, 0⟩,
        ⟨2024, 1, 1, 12, 0, 0, 500000⟩, "1.0.0", ["numpy"], [[("roi", 1)]],
        3, 4, true, 9⟩)).1 =
      Except.ok
      ⟨"strategy_9b", "agent_0f3a", "mm", "maker", StrategyType.MARKET_MAKING,
        10, some 1, "hashhex", "bucket/path", ⟨2023, 12, 31, 0, 0, 0, 0⟩,
        ⟨2024, 1, 1, 12, 0, 0, 500000⟩, "1.0.0", ["numpy"], [[("roi", 1)]],
        3, 4, true, 9⟩ :=
  ⟨c1_serialize_deserialize_roundtrip.1 _ ⟨by decide, by decide, rfl⟩,
   c1_serialize_deserialize_roundtrip.2 _ ⟨by decide, by decide⟩⟩

/-- Counterexample for C2 as stated: a document whose status entry is the
string bogus, outside the AgentStatus variant set, on which
TradingAgent.from_firestore_dict fails with a KeyError (for the absent
registration_date, which is read first), not with the ValueError that
models the ValidationError of the claim. -/
theorem c2_counterexample :
    Doc.getItem [("status", Value.str "bogus")] "status" =
      some (Value.str "bogus") ∧
    AgentStatus.ofVal? "bogus" = Option.none ∧
    (TradingAgent.from_firestore_dict [("status", Value.str "bogus")]).1 =
      Except.error (PyErr.keyError "registration_date") ∧
    (TradingAgent.from_firestore_dict [("status", Value.str "bogus")]).1 ≠
      Except.error PyErr.valueError :=
  ⟨rfl, rfl, rfl, fun hc => PyErr.noConfusion (Except.error.inj hc)⟩

/-- C2 as amended: on a document whose three converted fields are all
present as strings, a malformed timestamp string or an enum string outside
the variant set makes from_firestore_dict fail with a ValueError (the
ValidationError of the specification); a document in which an
earlier-converted key is missing fails with a KeyError instead (see
c2_counterexample and c9_missing_key_errors). -/
theorem c2_validation_error :
    (∀ (d : Doc) (s1 s2 s3 : String),
      Doc.getItem d "registration_date" = some (Value.str s1) →
      Doc.getItem d "last_active" = some (Value.str s2) →
      Doc.getItem d "status" = some (Value.str s3) →
      (parseIso s1 = Option.none ∨ parseIso s2 = Option.none ∨
        AgentStatus.ofVal? s3 = Option.none) →
      (TradingAgent.from_firestore_dict d).1 = Except.error PyErr.valueError) ∧
    (∀ (d : Doc) (s1 s2 s3 : String),
      Doc.getItem d "created_at" = some (Value.str s1) →
      Doc.getItem d "updated_at" = some (Value.str s2) →
      Doc.getItem d "strategy_type" = some (Value.str s3) →
      (parseIso s1 = Option.none ∨ parseIso s2 = Option.none ∨
        StrategyType.ofVal? s3 = Option.none) →
      (TradingStrategy.from_firestore_dict d).1 = Except.error PyErr.valueError) := by
  constructor
  · intro d s1 s2 s3 hg1 hg2 hg3 hbad
    cases hps1 : parseIso s1 with
    | none =>
      simp [TradingAgent.from_firestore_dict, hg1, datetime_fromisoformat, hps1]
    | some dt1 =>
      have hg2a : Doc.getItem (Doc.setItem d "registration_date"
          (Value.datetime dt1)) "last_active" = some (Value.str s2) := by
        rw [Doc.getItem_setItem_ne _ _ _ _ (by decide)]
        exact hg2
      cases hps2 : parseIso s2 with
      | none =>
        simp [TradingAgent.from_firestore_dict, hg1, datetime_fromisoformat,
          hps1, hg2a, hps2]
      | some dt2 =>
        have hg3a : Doc.getItem (Doc.setItem (Doc.setItem d "registration_date"
            (Value.datetime dt1)) "last_active" (Value.datetime dt2)) "status" =
            some (Value.str s3) := by
          rw [Doc.getItem_setItem_ne _ _ _ _ (by decide),
            Doc.getItem_setItem_ne _ _ _ _ (by decide)]
          exact hg3
        have hon : AgentStatus.ofVal? s3 = Option.none := by
          rcases hbad with hb | hb | hb
          · rw [hps1] at hb
            exact absurd hb (by simp)
          · rw [hps2] at hb
            exact absurd hb (by simp)
          · exact hb
        simp [TradingAgent.from_firestore_dict, hg1, datetime_fromisoformat,
          hps1, hg2a, hps2, hg3a, agentStatus_call, hon]
  · intro d s1 s2 s3 hg1 hg2 hg3 hbad
    cases hps1 : parseIso s1 with
    | none =>
      simp [TradingStrategy.from_firestore_dict, hg1, datetime_fromisoformat, hps1]
    | some dt1 =>
      have hg2a : Doc.getItem (Doc.setItem d "created_at"
          (Value.datetime dt1)) "updated_at" = some (Value.str s2) := by
        rw [Doc.getItem_setItem_ne _ _ _ _ (by decide)]
        exact hg2
      cases hps2 : parseIso s2 with
      | none =>
        simp [TradingStrategy.from_firestore_dict, hg1, datetime_fromisoformat,
          hps1, hg2a, hps2]
      | some dt2 =>
        have hg3a : Doc.getItem (Doc.setItem (Doc.setItem d "created_at"
            (Value.datetime dt1)) "updated_at" (Value.datetime dt2))
            "strategy_type" = some (Value.str s3) := by
          rw [Doc.getItem_setItem_ne _ _ _ _ (by decide),
            Doc.getItem_setItem_ne _ _ _ _ (by decide)]
          exact hg3
        have hon : StrategyType.ofVal? s3 = Option.none := by
          rcases hbad with hb | hb | hb
          · rw [hps1] at hb
            exact absurd hb (by simp)
          · rw [hps2] at hb
            exact absurd hb (by simp)
          · exact hb
        simp [TradingStrategy.from_firestore_dict, hg1, datetime_fromisoformat,
          hps1, hg2a, hps2, hg3a, strategyType_call, hon]

/-- Witness for c2_validation_error: a complete agent document with an
unrecognized status string and a complete strategy document with a
malformed created_at string, both rejected with a ValueError. -/
theorem c2_validation_error_witness :
    (TradingAgent.from_firestore_dict
      [("registration_date", Value.str "2021-01-01T00:00:00"),
       ("last_active", Value.str "2021-01-01T00:00:00"),
       ("status", Value.str "bogus")]).1 = Except.error PyErr.valueError ∧
    (TradingStrategy.from_firestore_dict
      [("created_at", Value.str "not-a-date"),
       ("updated_at", Value.str "2021-01-01T00:00:00"),
       ("strategy_type", Value.str "technical")]).1 =
      Except.error PyErr.valueError :=
  ⟨c2_validation_error.1 _ "2021-01-01T00:00:00" "2021-01-01T00:00:00" "bogus"
      rfl rfl rfl (Or.inr (Or.inr rfl)),
   c2_validation_error.2 _ "not-a-date" "2021-01-01T00:00:00" "technical"
      rfl rfl rfl (Or.inl rfl)⟩

/-- Counterexample for C3 as stated: from_firestore_dict is not pure in its
input document.  On a document holding only a well-formed
registration_date string, the call returns the document with that entry
replaced by a parsed datetime object, so the result differs from the
input. -/
theorem c3_counterexample :
    (TradingAgent.from_firestore_dict
        [("registration_date", Value.str "2021-01-01T00:00:00")]).2 ≠
      [("registration_date", Value.str "2021-01-01T00:00:00")] := by
  intro hcontra
  have h2 := congrArg (fun l => Doc.getItem l "registration_date") hcontra
  have h3 : some (Value.datetime ⟨2021, 1, 1, 0, 0, 0, 0⟩) =
      some (Value.str "2021-01-01T00:00:00") := h2
  exact Value.noConfusion (Option.some.inj h3)

/-- C3 as amended: to_firestore_dict is a pure function of the entity (and
cannot modify it), and the result of from_firestore_dict depends only on
its input, but from_firestore_dict mutates the input document in place:
it may replace the entries at registration_date, last_active and status
(created_at, updated_at and strategy_type for strategies) with converted
values, while every entry at any other key is left unchanged. -/
theorem c3_frame (d : Doc) (k1 k2 : String)
    (ha1 : k1 ≠ "registration_date") (ha2 : k1 ≠ "last_active")
    (ha3 : k1 ≠ "status")
    (hs1 : k2 ≠ "created_at") (hs2 : k2 ≠ "updated_at")
    (hs3 : k2 ≠ "strategy_type") :
    Doc.getItem (TradingAgent.from_firestore_dict d).2 k1 = Doc.getItem d k1 ∧
    Doc.getItem (TradingStrategy.from_firestore_dict d).2 k2 = Doc.getItem d k2 := by
  constructor
  · have g1 : ∀ (dd : Doc) (v : Value),
        Doc.getItem (Doc.setItem dd "registration_date" v) k1 = Doc.getItem dd k1 :=
      fun dd v => Doc.getItem_setItem_ne dd k1 "registration_date" v ha1
    have g2 : ∀ (dd : Doc) (v : Value),
        Doc.getItem (Doc.setItem dd "last_active" v) k1 = Doc.getItem dd k1 :=
      fun dd v => Doc.getItem_setItem_ne dd k1 "last_active" v ha2
    have g3 : ∀ (dd : Doc) (v : Value),
        Doc.getItem (Doc.setItem dd "status" v) k1 = Doc.getItem dd k1 :=
      fun dd v => Doc.getItem_setItem_ne dd k1 "status" v ha3
    cases hq1 : Doc.getItem d "registration_date" with
    | none => simp [TradingAgent.from_firestore_dict, hq1]
    | some v1 =>
      cases hq2 : datetime_fromisoformat v1 with
      | error e => simp [TradingAgent.from_firestore_dict, hq1, hq2]
      | ok rd =>
        cases hq3 : Doc.getItem (Doc.setItem d "registration_date"
            (Value.datetime rd)) "last_active" with
        | none => simp [TradingAgent.from_firestore_dict, hq1, hq2, hq3, g1]
        | some v2 =>
          cases hq4 : datetime_fromisoformat v2 with
          | error e =>
            simp [TradingAgent.from_firestore_dict, hq1, hq2, hq3, hq4, g1]
          | ok la =>
            cases hq5 : Doc.getItem (Doc.setItem (Doc.setItem d
                "registration_date" (Value.datetime rd)) "last_active"
                (Value.datetime la)) "status" with
            | none =>
              simp [TradingAgent.from_firestore_dict, hq1, hq2, hq3, hq4, hq5,
                g1, g2]
            | some v3 =>
              cases hq6 : agentStatus_call v3 with
              | error e =>
                simp [TradingAgent.from_firestore_dict, hq1, hq2, hq3, hq4, hq5,
                  hq6, g1, g2]
              | ok st =>
                simp [TradingAgent.from_firestore_dict, hq1, hq2, hq3, hq4, hq5,
                  hq6, g1, g2, g3]
  · have g1 : ∀ (dd : Doc) (v : Value),
        Doc.getItem (Doc.setItem dd "created_at" v) k2 = Doc.getItem dd k2 :=
      fun dd v => Doc.getItem_setItem_ne dd k2 "created_at" v hs1
    have g2 : ∀ (dd : Doc) (v : Value),
        Doc.getItem (Doc.setItem dd "updated_at" v) k2 = Doc.getItem dd k2 :=
      fun dd v => Doc.getItem_setItem_ne dd k2 "updated_at" v hs2
    have g3 : ∀ (dd : Doc) (v : Value),
        Doc.getItem (Doc.setItem dd "strategy_type" v) k2 = Doc.getItem dd k2 :=
      fun dd v => Doc.getItem_setItem_ne dd k2 "strategy_type" v hs3
    cases hq1 : Doc.getItem d "created_at" with
    | none => simp [TradingStrategy.from_firestore_dict, hq1]
    | some v1 =>
      cases hq2 : datetime_fromisoformat v1 with
      | error e => simp [TradingStrategy.from_firestore_dict, hq1, hq2]
      | ok ca =>
        cases hq3 : Doc.getItem (Doc.setItem d "created_at"
            (Value.datetime ca)) "updated_at" with
        | none => simp [TradingStrategy.from_firestore_dict, hq1, hq2, hq3, g1]
        | some v2 =>
          cases hq4 : datetime_fromisoformat v2 with
          | error e =>
            simp [TradingStrategy.from_firestore_dict, hq1, hq2, hq3, hq4, g1]
          | ok ua =>
            cases hq5 : Doc.getItem (Doc.setItem (Doc.setItem d "created_at"
                (Value.datetime ca)) "updated_at" (Value.datetime ua))
                "strategy_type" with
            | none =>
              simp [TradingStrategy.from_firestore_dict, hq1, hq2, hq3, hq4,
                hq5, g1, g2]
            | some v3 =>
              cases hq6 : strategyType_call v3 with
              | error e =>
                simp [TradingStrategy.from_firestore_dict, hq1, hq2, hq3, hq4,
                  hq5, hq6, g1, g2]
              | ok ty =>
                simp [TradingStrategy.from_firestore_dict, hq1, hq2, hq3, hq4,
                  hq5, hq6, g1, g2, g3]

/-- Witness for c3_frame on a concrete document and keys. -/
theorem c3_frame_witness :
    Doc.getItem (TradingAgent.from_firestore_dict
      [("owner_wallet", Value.str "0xw"),
       ("registration_date", Value.str "2021-01-01T00:00:00")]).2
      "owner_wallet" =
      Doc.getItem
        [("owner_wallet", Value.str "0xw"),
         ("registration_date", Value.str "2021-01-01T00:00:00")]
        "owner_wallet" ∧
    Doc.getItem (TradingStrategy.from_firestore_dict
      [("owner_wallet", Value.str "0xw"),
       ("registration_date", Value.str "2021-01-01T00:00:00")]).2 "price" =
      Doc.getItem
        [("owner_wallet", Value.str "0xw"),
         ("registration_date", Value.str "2021-01-01T00:00:00")]
        "price" :=
  c3_frame _ "owner_wallet" "price" (by decide) (by decide) (by decide)
    (by decide) (by decide) (by decide)

/-- C10: deserialization is not atomic in its input.  When the
registration_date entry is a well-formed timestamp string but the
last_active entry is a malformed one, TradingAgent.from_firestore_dict
fails with a ValueError and returns the input document with its
registration_date entry already replaced by the parsed datetime, leaving
the caller's document partially converted. -/
theorem c10_partial_mutation_on_error (d : Doc) (s1 s2 : String)
    (dt : DateTime)
    (hg1 : Doc.getItem d "registration_date" = some (Value.str s1))
    (hp1 : parseIso s1 = some dt)
    (hg2 : Doc.getItem d "last_active" = some (Value.str s2))
    (hp2 : parseIso s2 = Option.none) :
    TradingAgent.from_firestore_dict d =
      (Except.error PyErr.valueError,
        Doc.setItem d "registration_date" (Value.datetime dt)) ∧
    Doc.getItem (Doc.setItem d "registration_date" (Value.datetime dt))
      "registration_date" = some (Value.datetime dt) := by
  constructor
  · have hg2a : Doc.getItem (Doc.setItem d "registration_date"
        (Value.datetime dt)) "last_active" = some (Value.str s2) := by
      rw [Doc.getItem_setItem_ne _ _ _ _ (by decide)]
      exact hg2
    simp [TradingAgent.from_firestore_dict, hg1, datetime_fromisoformat,
      hp1, hg2a, hp2]
  · exact Doc.getItem_setItem_self d _ _

/-- Witness for c10_partial_mutation_on_error on a concrete document. -/
theorem c10_partial_mutation_on_error_witness :
    TradingAgent.from_firestore_dict
      [("registration_date", Value.str "2021-01-01T00:00:00"),
       ("last_active", Value.str "nope")] =
      (Except.error PyErr.valueError,
        Doc.setItem
          [("registration_date", Value.str "2021-01-01T00:00:00"),
           ("last_active", Value.str "nope")]
          "registration_date" (Value.datetime ⟨2021, 1, 1, 0, 0, 0, 0⟩)) ∧
    Doc.getItem (Doc.setItem
        [("registration_date", Value.str "2021-01-01T00:00:00"),
         ("last_active", Value.str "nope")]
        "registration_date" (Value.datetime ⟨2021, 1, 1, 0, 0, 0, 0⟩))
      "registration_date" = some (Value.datetime ⟨2021, 1, 1, 0, 0, 0, 0⟩) :=
  c10_partial_mutation_on_error _ "2021-01-01T00:00:00" "nope"
    ⟨2021, 1, 1, 0, 0, 0, 0⟩ rfl rfl rfl rfl

/-- C9: a document missing registration_date, last_active or status makes
TradingAgent.from_firestore_dict fail with a KeyError naming that key (no
default is silently substituted), and a KeyError is distinct from the
ValueError that models the ValidationError of the timestamp and enum
cases.  The missing key is detected in conversion order, after the
earlier conversions have run. -/
theorem c9_missing_key_errors (d : Doc) :
    (Doc.getItem d "registration_date" = Option.none →
      TradingAgent.from_firestore_dict d =
        (Except.error (PyErr.keyError "registration_date"), d)) ∧
    (∀ (s1 : String) (dt1 : DateTime),
      Doc.getItem d "registration_date" = some (Value.str s1) →
      parseIso s1 = some dt1 →
      Doc.getItem d "last_active" = Option.none →
      TradingAgent.from_firestore_dict d =
        (Except.error (PyErr.keyError "last_active"),
          Doc.setItem d "registration_date" (Value.datetime dt1))) ∧
    (∀ (s1 s2 : String) (dt1 dt2 : DateTime),
      Doc.getItem d "registration_date" = some (Value.str s1) →
      parseIso s1 = some dt1 →
      Doc.getItem d "last_active" = some (Value.str s2) →
      parseIso s2 = some dt2 →
      Doc.getItem d "status" = Option.none →
      TradingAgent.from_firestore_dict d =
        (Except.error (PyErr.keyError "status"),
          Doc.setItem (Doc.setItem d "registration_date" (Value.datetime dt1))
            "last_active" (Value.datetime dt2))) ∧
    (∀ k : String, PyErr.keyError k ≠ PyErr.valueError) := by
  refine ⟨?_, ?_, ?_, ?_⟩
  · intro hq1
    simp [TradingAgent.from_firestore_dict, hq1]
  · intro s1 dt1 hg1 hp1 hg2
    have hg2a : Doc.getItem (Doc.setItem d "registration_date"
        (Value.datetime dt1)) "last_active" = Option.none := by
      rw [Doc.getItem_setItem_ne _ _ _ _ (by decide)]
      exact hg2
    simp [TradingAgent.from_firestore_dict, hg1, datetime_fromisoformat,
      hp1, hg2a]
  · intro s1 s2 dt1 dt2 hg1 hp1 hg2 hp2 hg3
    have hg2a : Doc.getItem (Doc.setItem d "registration_date"
        (Value.datetime dt1)) "last_active" = some (Value.str s2) := by
      rw [Doc.getItem_setItem_ne _ _ _ _ (by decide)]
      exact hg2
    have hg3a : Doc.getItem (Doc.setItem (Doc.setItem d "registration_date"
        (Value.datetime dt1)) "last_active" (Value.datetime dt2)) "status" =
        Option.none := by
      rw [Doc.getItem_setItem_ne _ _ _ _ (by decide),
        Doc.getItem_setItem_ne _ _ _ _ (by decide)]
      exact hg3
    simp [TradingAgent.from_firestore_dict, hg1, datetime_fromisoformat,
      hp1, hg2a, hp2, hg3a]
  · intro k hc
    exact PyErr.noConfusion hc

/-- Witness for c9_missing_key_errors: the empty document and documents
missing exactly one of the three keys. -/
theorem c9_missing_key_errors_witness :
    TradingAgent.from_firestore_dict ([] : Doc) =
      (Except.error (PyErr.keyError "registration_date"), ([] : Doc)) ∧
    TradingAgent.from_firestore_dict
      [("registration_date", Value.str "2021-01-01T00:00:00")] =
      (Except.error (PyErr.keyError "last_active"),
        Doc.setItem [("registration_date", Value.str "2021-01-01T00:00:00")]
          "registration_date" (Value.datetime ⟨2021, 1, 1, 0, 0, 0, 0⟩)) ∧
    TradingAgent.from_firestore_dict
      [("registration_date", Value.str "2021-01-01T00:00:00"),
       ("last_active", Value.str "2022-02-02T00:00:00")] =
      (Except.error (PyErr.keyError "status"),
        Doc.setItem (Doc.setItem
          [("registration_date", Value.str "2021-01-01T00:00:00"),
           ("last_active", Value.str "2022-02-02T00:00:00")]
          "registration_date" (Value.datetime ⟨2021, 1, 1, 0, 0, 0, 0⟩))
          "last_active" (Value.datetime ⟨2022, 2, 2, 0, 0, 0, 0⟩)) :=
  ⟨(c9_missing_key_errors []).1 rfl,
   (c9_missing_key_errors _).2.1 "2021-01-01T00:00:00" ⟨2021, 1, 1, 0, 0, 0, 0⟩
     rfl rfl rfl,
   (c9_missing_key_errors _).2.2.1 "2021-01-01T00:00:00" "2022-02-02T00:00:00"
     ⟨2021, 1, 1, 0, 0, 0, 0⟩ ⟨2022, 2, 2, 0, 0, 0, 0⟩ rfl rfl rfl rfl rfl⟩

/-- Counterexample for C4 as stated: in the serialized TradingAgent
document the status entry is the AgentStatus enum member itself, not a
plain string; TradingAgent.to_firestore_dict applies no .value conversion
(unlike TradingStrategy.to_firestore_dict, which does for
strategy_type). -/
theorem c4_counterexample :
    Doc.getItem (TradingAgent.to_firestore_dict
      ⟨"agent_x", "0xw", "n", "d", AgentStatus.REGISTERED,
        ⟨2021, 1, 1, 0, 0, 0, 0⟩, ⟨2021, 1, 1, 0, 0, 0, 0⟩, [], 0, 100, []⟩)
      "status" = some (Value.enumAgentStatus AgentStatus.REGISTERED) ∧
    Value.asStr? (Value.enumAgentStatus AgentStatus.REGISTERED) =
      Option.none ∧
    Value.asStr? (Value.str "registered") = some "registered" :=
  ⟨rfl, rfl, rfl⟩

/-- C4 as amended: every timestamp field of a serialized document is the
isoformat string of the corresponding datetime; the strategy_type field of
a serialized TradingStrategy is the underlying plain string value of the
member (one of the six StrategyType values); the status field of a
serialized TradingAgent remains the AgentStatus enum member, whose
underlying value is one of registered, verified, suspended, retired, but
it is not converted to a plain string. -/
theorem c4_serialized_field_formats :
    (∀ a : TradingAgent,
      Doc.getItem a.to_firestore_dict "registration_date" =
        some (Value.str (DateTime.isoformat a.registration_date)) ∧
      Doc.getItem a.to_firestore_dict "last_active" =
        some (Value.str (DateTime.isoformat a.last_active)) ∧
      Doc.getItem a.to_firestore_dict "status" =
        some (Value.enumAgentStatus a.status) ∧
      AgentStatus.val a.status ∈
        ["registered", "verified", "suspended", "retired"]) ∧
    (∀ s : TradingStrategy,
      Doc.getItem s.to_firestore_dict "created_at" =
        some (Value.str (DateTime.isoformat s.created_at)) ∧
      Doc.getItem s.to_firestore_dict "updated_at" =
        some (Value.str (DateTime.isoformat s.updated_at)) ∧
      Doc.getItem s.to_firestore_dict "strategy_type" =
        some (Value.str (StrategyType.val s.strategy_type)) ∧
      StrategyType.val s.strategy_type ∈
        ["technical", "fundamental", "quantitative", "ml_predictive",
         "arbitrage", "market_making"]) := by
  constructor
  · intro a
    obtain ⟨aid, ow, nm, dsc, st, rd, la, pm, cb, rs, md⟩ := a
    refine ⟨rfl, rfl, rfl, ?_⟩
    cases st <;> simp [AgentStatus.val]
  · intro s
    obtain ⟨sid, cid, nm, dsc, ty, pr, rental, ch, sp, ca, ua, ver, deps, ph,
      ts, ar, ia, vs⟩ := s
    refine ⟨rfl, rfl, rfl, ?_⟩
    cases ty <;> simp [StrategyType.val]

/-- C6: serialization is total, for both classes: to_firestore_dict of any
instance is a document, never an error (its result type has no error
case).  The only error case of the module is deserialization failure, and
a deserialization error propagates to the caller unchanged, with no retry
or recovery: when the first conversion of from_firestore_dict fails with
some error, the call returns exactly that error. -/
theorem c6_serialize_total_errors_propagate :
    (∀ a : TradingAgent, ∃ doc : Doc, a.to_firestore_dict = doc) ∧
    (∀ s : TradingStrategy, ∃ doc : Doc, s.to_firestore_dict = doc) ∧
    (∀ (d : Doc) (v : Value) (e : PyErr),
      Doc.getItem d "registration_date" = some v →
      datetime_fromisoformat v = Except.error e →
      (TradingAgent.from_firestore_dict d).1 = Except.error e) ∧
    (∀ (d : Doc) (v : Value) (e : PyErr),
      Doc.getItem d "created_at" = some v →
      datetime_fromisoformat v = Except.error e →
      (TradingStrategy.from_firestore_dict d).1 = Except.error e) := by
  refine ⟨fun a => ⟨a.to_firestore_dict, rfl⟩,
    fun s => ⟨s.to_firestore_dict, rfl⟩, ?_, ?_⟩
  · intro d v e hg hf
    simp [TradingAgent.from_firestore_dict, hg, hf]
  · intro d v e hg hf
    simp [TradingStrategy.from_firestore_dict, hg, hf]

/-- Witness for c6_serialize_total_errors_propagate: a malformed timestamp
error propagates out of both deserializers unchanged. -/
theorem c6_serialize_total_errors_propagate_witness :
    (TradingAgent.from_firestore_dict
      [("registration_date", Value.str "zzz")]).1 =
      Except.error PyErr.valueError ∧
    (TradingStrategy.from_firestore_dict
      [("created_at", Value.datetime ⟨2021, 1, 1, 0, 0, 0, 0⟩)]).1 =
      Except.error PyErr.typeError :=
  ⟨c6_serialize_total_errors_propagate.2.2.1 _ (Value.str "zzz")
      PyErr.valueError rfl rfl,
   c6_serialize_total_errors_propagate.2.2.2 _
      (Value.datetime ⟨2021, 1, 1, 0, 0, 0, 0⟩) PyErr.typeError rfl rfl⟩

/-- C5: the declared defaults of the score fields are reputation_score =
100.0 and credit_balance = 0.0, and a construction that supplies only the
required fields yields those values; but the dataclass as declared
violates the dataclass field-order rule (the defaulted agent_id precedes
the required owner_wallet), so the @dataclass decorator raises TypeError
at class creation and no TradingAgent can actually be constructed. -/
theorem c5_default_scores_and_field_order :
    dataclassOk TradingAgent.fieldSpec = false ∧
    ∀ (genHex : String) (now : DateTime) (w n dsc : String),
      (TradingAgent.mkDefault genHex now w n dsc).reputation_score = 100 ∧
      (TradingAgent.mkDefault genHex now w n dsc).credit_balance = 0 :=
  ⟨rfl, fun _ _ _ _ _ => ⟨rfl, rfl⟩⟩

theorem entryListPrim_encode (l : List (String × Rat)) :
    entryListPrim (encodeFloatEntries l) = true := by
  induction l with
  | nil => rfl
  | cons e r ih =>
    obtain ⟨k, q⟩ := e
    simp [encodeFloatEntries, entryListPrim, Value.isFirestorePrimitive, ih]

theorem agent_to_firestore_eq (aid ow nm dsc : String) (st : AgentStatus)
    (rd la : DateTime) (pm : List (String × Rat)) (cb rs : Rat)
    (md : List (String × Value)) :
    TradingAgent.to_firestore_dict
      ⟨aid, ow, nm, dsc, st, rd, la, pm, cb, rs, md⟩ =
    [("agent_id", Value.str aid),
     ("owner_wallet", Value.str ow),
     ("name", Value.str nm),
     ("description", Value.str dsc),
     ("status", Value.enumAgentStatus st),
     ("registration_date", Value.str (DateTime.isoformat rd)),
     ("last_active", Value.str (DateTime.isoformat la)),
     ("performance_metrics", Value.dict (encodeFloatEntries pm)),
     ("credit_balance", Value.float cb),
     ("reputation_score", Value.float rs),
     ("metadata", Value.dict md)] := rfl

/-- Counterexample for C7 as stated: the serialized TradingAgent document
contains a value that is none of string, number, boolean, sequence or
mapping, namely the raw AgentStatus enum member stored under status. -/
theorem c7_counterexample :
    Doc.getItem (TradingAgent.to_firestore_dict
      ⟨"agent_y", "0xw", "n", "d", AgentStatus.VERIFIED,
        ⟨2022, 6, 1, 8, 15, 0, 0⟩, ⟨2022, 6, 1, 8, 15, 0, 0⟩, [], 0, 100, []⟩)
      "status" = some (Value.enumAgentStatus AgentStatus.VERIFIED) ∧
    Value.isFirestorePrimitive (Value.enumAgentStatus AgentStatus.VERIFIED) =
      false := by
  constructor
  · rfl
  · simp [Value.isFirestorePrimitive]

/-- C7 as amended: in the document serialized from a valid TradingAgent,
every entry except the status entry is a string, number, boolean, sequence
or string-keyed mapping of such values; the status entry is the AgentStatus
enum member. -/
theorem c7_document_value_kinds (a : TradingAgent) (h : a.Valid)
    (p : String × Value) (hp : p ∈ a.to_firestore_dict) :
    p = ("status", Value.enumAgentStatus a.status) ∨
    p.2.isFirestorePrimitive = true := by
  obtain ⟨aid, ow, nm, dsc, st, rd, la, pm, cb, rs, md⟩ := a
  obtain ⟨h1, h2, h3⟩ := h
  rw [agent_to_firestore_eq] at hp
  simp only [List.mem_cons, List.not_mem_nil, or_false] at hp
  rcases hp with rfl | rfl | rfl | rfl | rfl | rfl | rfl | rfl | rfl | rfl | rfl
  · exact Or.inr (by simp [Value.isFirestorePrimitive])
  · exact Or.inr (by simp [Value.isFirestorePrimitive])
  · exact Or.inr (by simp [Value.isFirestorePrimitive])
  · exact Or.inr (by simp [Value.isFirestorePrimitive])
  · exact Or.inl rfl
  · exact Or.inr (by simp [Value.isFirestorePrimitive])
  · exact Or.inr (by simp [Value.isFirestorePrimitive])
  · exact Or.inr (by
      simp only [Value.isFirestorePrimitive]
      exact entryListPrim_encode pm)
  · exact Or.inr (by simp [Value.isFirestorePrimitive])
  · exact Or.inr (by simp [Value.isFirestorePrimitive])
  · exact Or.inr (by
      simp only [Value.isFirestorePrimitive]
      exact h3)

/-- Witness for c7_document_value_kinds at a concrete agent and entry. -/
theorem c7_document_value_kinds_witness :
    ("name", Value.str "n") = ("status", Value.enumAgentStatus
        AgentStatus.VERIFIED) ∨
    (Value.str "n").isFirestorePrimitive = true :=
  c7_document_value_kinds
    ⟨"agent_y", "0xw", "n", "d", AgentStatus.VERIFIED,
      ⟨2022, 6, 1, 8, 15, 0, 0⟩, ⟨2022, 6, 1, 8, 15, 0, 0⟩, [], 0, 100, []⟩
    ⟨by decide, by decide, rfl⟩ ("name", Value.str "n")
    (List.Mem.tail _ (List.Mem.tail _ (List.Mem.head _)))

theorem string_append_right_inj (p s t : String) (h : p ++ s = p ++ t) :
    s = t := by
  obtain ⟨lp⟩ := p
  obtain ⟨ls⟩ := s
  obtain ⟨lt⟩ := t
  have h2 : lp ++ ls = lp ++ lt := congrArg String.data h
  exact congrArg String.mk ((List.append_right_inj lp).mp h2)

/-- C8: the defaulted strategy_id of TradingStrategy precedes required
fields, so the dataclass as declared raises TypeError at class creation
(as TradingAgent does, see c5_default_scores_and_field_order); under the
intended construction, two constructions whose injected uuid hex outputs
differ produce distinct agent_id and distinct strategy_id values, since
the identifier is the injected output behind a fixed prefix. -/
theorem c8_generated_identifiers_distinct :
    dataclassOk TradingStrategy.fieldSpec = false ∧
    (∀ (g1 g2 : String) (now1 now2 : DateTime) (w1 n1 d1 w2 n2 d2 : String),
      g1 ≠ g2 →
      (TradingAgent.mkDefault g1 now1 w1 n1 d1).agent_id ≠
        (TradingAgent.mkDefault g2 now2 w2 n2 d2).agent_id) ∧
    (∀ (g1 g2 : String) (now1 now2 : DateTime)
      (c1 n1 d1 c2 n2 d2 : String) (t1 t2 : StrategyType) (p1 p2 : Rat)
      (ch1 sp1 ch2 sp2 : String),
      g1 ≠ g2 →
      (TradingStrategy.mkDefault g1 now1 c1 n1 d1 t1 p1 ch1 sp1).strategy_id ≠
        (TradingStrategy.mkDefault g2 now2 c2 n2 d2 t2 p2 ch2 sp2).strategy_id) := by
  refine ⟨rfl, ?_, ?_⟩
  · intro g1 g2 now1 now2 w1 n1 d1 w2 n2 d2 hne hc
    exact hne (string_append_right_inj "agent_" g1 g2 hc)
  · intro g1 g2 now1 now2 c1 n1 d1 c2 n2 d2 t1 t2 p1 p2 ch1 sp1 ch2 sp2 hne hc
    exact hne (string_append_right_inj "strategy_" g1 g2 hc)

/-- Witness for c8_generated_identifiers_distinct on two concrete
generator outputs. -/
theorem c8_generated_identifiers_distinct_witness :
    (TradingAgent.mkDefault "0a1b" ⟨2021, 1, 1, 0, 0, 0, 0⟩
        "0xw" "n" "d").agent_id ≠
      (TradingAgent.mkDefault "2c3d" ⟨2021, 1, 1, 0, 0, 0, 0⟩
        "0xw" "n" "d").agent_id ∧
    (TradingStrategy.mkDefault "0a1b" ⟨2021, 1, 1, 0, 0, 0, 0⟩
        "agent_z" "s" "d" StrategyType.TECHNICAL 1 "h" "p").strategy_id ≠
      (TradingStrategy.mkDefault "2c3d" ⟨2021, 1, 1, 0, 0, 0, 0⟩
        "agent_z" "s" "d" StrategyType.TECHNICAL 1 "h" "p").strategy_id :=
  ⟨c8_generated_identifiers_distinct.2.1 "0a1b" "2c3d" _ _ _ _ _ _ _ _
      (by decide),
   c8_generated_identifiers_distinct.2.2 "0a1b" "2c3d" _ _ _ _ _ _ _ _
      StrategyType.TECHNICAL StrategyType.TECHNICAL 1 1 _ _ _ _ (by decide)⟩
